import Mathlib

/-
  Verification development for the DataDrop relay server
  (src/backend/index.py).

  Shallow embedding conventions:
  * Python floats (timestamps, speeds) are modelled as exact rationals (ℚ).
    Wall-clock times are passed in explicitly wherever the source calls
    time.time().  The float special values inf/NaN are not representable in
    this exact model; where the source tests for them the test is noted.
  * Python ints are ℤ (byte counts, sizes).
  * WebSocket connections are opaque identifiers (ConnId := ℕ).  Whether a
    send to a connection succeeds is an input of the model: a predicate
    alive : ConnId → Bool.  A send to a dead connection raises in Python;
    handlers therefore return, next to their outputs, a Bool that is true
    when the handler ran to completion and false when an uncaught exception
    escaped it.  Messages actually delivered are collected in a log.
  * The room registry (the module-level dict named rooms) is an association
    list with unique keys, threaded explicitly.
-/

namespace DataDrop

/-- Identifier of one WebSocket connection. -/
abbrev ConnId := Nat

/-- Python round-half-even (the semantics of the built-in round) restricted
to exact rationals. -/
def roundHalfEven (q : ℚ) : ℤ :=
  let f := ⌊q⌋
  if q - f < 1/2 then f
  else if q - f > 1/2 then f + 1
  else if 2 ∣ f then f else f + 1

/-- Python round(x, 2) on an exact rational. -/
def round2 (q : ℚ) : ℚ := (roundHalfEven (q * 100) : ℚ) / 100

/-- Python int(x): truncation toward zero. -/
def pyInt (q : ℚ) : ℤ := if q < 0 then ⌈q⌉ else ⌊q⌋

/-- Rendering of a rational with the %.2f format, as used by the f-strings
in format_size. -/
def twoDecimalString (q : ℚ) : String :=
  let c := roundHalfEven (q * 100)
  let sign := if c < 0 then "-" else ""
  let a := c.natAbs
  sign ++ toString (a / 100) ++ "." ++
    (if a % 100 < 10 then "0" else "") ++ toString (a % 100)

/-- The unit suffixes of format_size. -/
def sizeUnits : List String := ["B", "KB", "MB", "GB", "TB"]

/-- The while loop of format_size: divide by 1024 while size >= 1024 and
the unit index can still grow.  The fuel argument is 4 = len(units) - 1,
which encodes the bound unit_index < len(units) - 1. -/
def formatSizeAux : ℕ → ℚ → ℕ → ℚ × ℕ
  | 0, size, idx => (size, idx)
  | fuel + 1, size, idx =>
      if size ≥ 1024 then formatSizeAux fuel (size / 1024) (idx + 1)
      else (size, idx)

/-- format_size from src/backend/index.py: bytes to a human readable
string. -/
def format_size (bytes_size : ℤ) : String :=
  if bytes_size = 0 then "0 B"
  else
    let p := formatSizeAux 4 (bytes_size : ℚ) 0
    twoDecimalString p.1 ++ " " ++ sizeUnits.getD p.2 "B"

/-- format_speed from src/backend/index.py. -/
def format_speed (bytes_per_second : ℚ) : String :=
  format_size (pyInt bytes_per_second) ++ "/s"

/-- format_time from src/backend/index.py.  The source also maps the float
values inf and NaN to "calculating..."; those values do not exist in the
exact rational model, so only the seconds < 0 test remains. -/
def format_time (seconds : ℚ) : String :=
  if seconds < 0 then "calculating..."
  else
    let s := (pyInt seconds).toNat
    if s < 60 then toString s ++ "s"
    else if s < 3600 then toString (s / 60) ++ "m " ++ toString (s % 60) ++ "s"
    else toString (s / 3600) ++ "h " ++ toString ((s % 3600) / 60) ++ "m"

/-- The TransferStats dataclass. -/
structure TransferStats where
  filename : String := ""
  total_size : ℤ := 0
  transferred : ℤ := 0
  start_time : ℚ := 0
  last_update_time : ℚ := 0
  last_bytes : ℤ := 0
  current_speed : ℚ := 0
deriving DecidableEq

/-- The dict returned by TransferStats.update. -/
structure StatusSnapshot where
  filename : String
  total_size : ℤ
  transferred : ℤ
  progress : ℚ
  speed : ℚ
  speed_formatted : String
  transferred_formatted : String
  total_formatted : String
  eta : String
  elapsed : String
deriving DecidableEq

/-- TransferStats.update from src/backend/index.py.  The Python method
mutates self and returns a status dict; here the updated stats record is
returned next to the snapshot.  current_time stands for the time.time()
call inside the method. -/
def TransferStats.update (s : TransferStats) (bytes_received : ℤ)
    (current_time : ℚ) : TransferStats × StatusSnapshot :=
  let transferred := s.transferred + bytes_received
  let time_diff := current_time - s.last_update_time
  let current_speed :=
    if time_diff ≥ 1/10 then
      (if time_diff > 0 then ((transferred - s.last_bytes : ℤ) : ℚ) / time_diff else 0)
    else s.current_speed
  let last_update_time := if time_diff ≥ 1/10 then current_time else s.last_update_time
  let last_bytes := if time_diff ≥ 1/10 then transferred else s.last_bytes
  let progress :=
    if s.total_size > 0 then ((transferred : ℤ) : ℚ) / (s.total_size : ℚ) * 100 else 0
  let elapsed := current_time - s.start_time
  let avg_speed := if elapsed > 0 then ((transferred : ℤ) : ℚ) / elapsed else 0
  let remaining_bytes := s.total_size - transferred
  let eta := if avg_speed > 0 then ((remaining_bytes : ℤ) : ℚ) / avg_speed else 0
  ({ s with
      transferred := transferred
      last_update_time := last_update_time
      last_bytes := last_bytes
      current_speed := current_speed },
   { filename := s.filename
     total_size := s.total_size
     transferred := transferred
     progress := round2 progress
     speed := current_speed
     speed_formatted := format_speed current_speed
     transferred_formatted := format_size transferred
     total_formatted := format_size s.total_size
     eta := format_time eta
     elapsed := format_time elapsed })

/-- The average speed since transfer start that update computes internally
(transferred-after-this-call divided by elapsed, 0 when elapsed is not
positive). -/
def avgSpeed (s : TransferStats) (bytes_received : ℤ) (current_time : ℚ) : ℚ :=
  if current_time - s.start_time > 0 then
    ((s.transferred + bytes_received : ℤ) : ℚ) / (current_time - s.start_time)
  else 0

theorem update_fst_transferred (s : TransferStats) (b : ℤ) (t : ℚ) :
    ((s.update b t).1).transferred = s.transferred + b := rfl

theorem update_fst_total_size (s : TransferStats) (b : ℤ) (t : ℚ) :
    ((s.update b t).1).total_size = s.total_size := rfl

theorem update_fst_start_time (s : TransferStats) (b : ℤ) (t : ℚ) :
    ((s.update b t).1).start_time = s.start_time := rfl

theorem update_fst_filename (s : TransferStats) (b : ℤ) (t : ℚ) :
    ((s.update b t).1).filename = s.filename := rfl

theorem update_fst_current_speed (s : TransferStats) (b : ℤ) (t : ℚ) :
    ((s.update b t).1).current_speed =
      (if t - s.last_update_time ≥ 1/10 then
        (if t - s.last_update_time > 0 then
          ((s.transferred + b - s.last_bytes : ℤ) : ℚ) / (t - s.last_update_time)
        else 0)
      else s.current_speed) := rfl

theorem update_fst_last_update_time (s : TransferStats) (b : ℤ) (t : ℚ) :
    ((s.update b t).1).last_update_time =
      (if t - s.last_update_time ≥ 1/10 then t else s.last_update_time) := rfl

theorem update_snd_transferred (s : TransferStats) (b : ℤ) (t : ℚ) :
    ((s.update b t).2).transferred = s.transferred + b := rfl

theorem update_snd_progress (s : TransferStats) (b : ℤ) (t : ℚ) :
    ((s.update b t).2).progress =
      round2 (if s.total_size > 0 then
        ((s.transferred + b : ℤ) : ℚ) / (s.total_size : ℚ) * 100 else 0) := rfl

theorem update_snd_speed (s : TransferStats) (b : ℤ) (t : ℚ) :
    ((s.update b t).2).speed = ((s.update b t).1).current_speed := rfl

theorem update_snd_eta (s : TransferStats) (b : ℤ) (t : ℚ) :
    ((s.update b t).2).eta =
      format_time (if avgSpeed s b t > 0 then
        ((s.total_size - (s.transferred + b) : ℤ) : ℚ) / avgSpeed s b t else 0) := rfl

/-- The TransferRoom dataclass.  sender and receiver hold connection
identifiers; created_at stands for the time.time() default factory. -/
structure TransferRoom where
  room_id : String
  sender : Option ConnId := none
  receiver : Option ConnId := none
  stats : TransferStats := {}
  is_active : Bool := false
  created_at : ℚ := 0
deriving DecidableEq

/-- The module-level rooms dict, as an association list with unique keys. -/
abbrev RoomRegistry := List (String × TransferRoom)

/-- Dict lookup: rooms.get(room_id) / rooms[room_id]. -/
def regFind : RoomRegistry → String → Option TransferRoom
  | [], _ => none
  | (k, v) :: rest, id => if k = id then some v else regFind rest id

/-- Dict assignment: rooms[room_id] = room (replaces an existing binding,
otherwise appends). -/
def regSet : RoomRegistry → String → TransferRoom → RoomRegistry
  | [], id, r => [(id, r)]
  | (k, v) :: rest, id, r =>
      if k = id then (k, r) :: rest else (k, v) :: regSet rest id r

/-- Dict deletion: del rooms[room_id]. -/
def regErase : RoomRegistry → String → RoomRegistry
  | [], _ => []
  | (k, v) :: rest, id => if k = id then rest else (k, v) :: regErase rest id

theorem regFind_regSet_self (rooms : RoomRegistry) (id : String)
    (r : TransferRoom) : regFind (regSet rooms id r) id = some r := by
  induction rooms with
  | nil => simp [regSet, regFind]
  | cons p rest ih =>
      by_cases h : p.1 = id
      · simp [regSet, regFind, h]
      · simp [regSet, regFind, h, ih]

/-- Server-to-client messages (the dicts passed to send_json, and the raw
bytes passed to send_bytes). -/
inductive OutMsg where
  | errorMsg (message : String)
  | connectedMsg (role : String) (room_id : String) (message : String)
      (peer_connected : Bool)
  | peer_joined (peer : String) (message : String)
  | peer_left (peer : String) (message : String)
  | fileInfoMsg (name : String) (size : ℤ) (size_formatted : String)
  | transfer_started (message : String)
  | chunkJson (data : String) (index : ℤ)
  | chunkBinary (payload : List ℕ)
  | progressMsg (snap : StatusSnapshot)
  | completeMsg (filename : String) (size : ℤ) (size_formatted : String)
      (elapsed : String) (average_speed : String)
  | cancelledMsg (message : String)
  | pong
deriving DecidableEq

/-- Client-to-server JSON messages, discriminated by their type field.
Field extraction with data.get and its defaults is applied at construction:
file_info carries data.get("name", "unknown") and data.get("size", 0); a
chunk carries the base64 text data.get("data", "") together with the byte
string that base64.b64decode yields on it (base64 itself is not modelled,
only the decoded payload the source takes the length of), and
data.get("index", 0).  An unrecognized type is the constructor other. -/
inductive InMsg where
  | file_info (name : String) (size : ℤ)
  | chunk (data : String) (payload : List ℕ) (index : ℤ)
  | complete
  | cancel
  | ping
  | other
deriving DecidableEq

/-- One frame of the websocket receive loop: a text (JSON) message or a
binary chunk. -/
inductive WireMsg where
  | text (m : InMsg)
  | binary (chunk : List ℕ)
deriving DecidableEq

/-- A send_json/send_bytes call on a connection that is not wrapped in
try/except: delivers when the connection is alive, raises otherwise.
The Bool is false when the call raised. -/
def trySendTo (alive : ConnId → Bool) (c : ConnId) (m : OutMsg) :
    List (ConnId × OutMsg) × Bool :=
  if alive c then ([(c, m)], true) else ([], false)

/-- A send on an Option-valued slot without a None guard (e.g.
room.sender.send_json(...)): None raises AttributeError, which the model
folds into the same failure Bool. -/
def sendOptOrRaise (alive : ConnId → Bool) (oc : Option ConnId) (m : OutMsg) :
    List (ConnId × OutMsg) × Bool :=
  match oc with
  | none => ([], false)
  | some c => trySendTo alive c m

/-- The fresh TransferStats built in the file_info branch of
handle_message: TransferStats(filename=..., total_size=...,
start_time=time.time(), last_update_time=time.time()). -/
def initStats (name : String) (size : ℤ) (now : ℚ) : TransferStats :=
  { filename := name
    total_size := size
    transferred := 0
    start_time := now
    last_update_time := now
    last_bytes := 0
    current_speed := 0 }

/-- handle_message from src/backend/index.py.  Returns the room after the
branch ran, the log of messages delivered, and true when the branch ran to
completion (false when a send raised; the raised exception is the caller's
concern).  now stands for the time.time() calls in the branch. -/
def handle_message (alive : ConnId → Bool) (now : ℚ) (room : TransferRoom)
    (role : String) (msg : InMsg) :
    TransferRoom × List (ConnId × OutMsg) × Bool :=
  match msg with
  | .file_info name size =>
      if role ≠ "sender" then (room, [], true)
      else
        let room1 := { room with stats := initStats name size now, is_active := true }
        let n1 :=
          match room1.receiver with
          | some c => trySendTo alive c (.fileInfoMsg name size (format_size size))
          | none => ([], true)
        if ¬ n1.2 then (room1, n1.1, false)
        else
          let n2 := sendOptOrRaise alive room1.sender
            (.transfer_started ("Starting transfer of " ++ name))
          (room1, n1.1 ++ n2.1, n2.2)
  | .chunk data payload index =>
      if role ≠ "sender" ∨ room.receiver = none then (room, [], true)
      else
        let stats1 := (room.stats.update (payload.length : ℤ) now).1
        let snap := (room.stats.update (payload.length : ℤ) now).2
        let room1 := { room with stats := stats1 }
        let n1 := sendOptOrRaise alive room.receiver (.chunkJson data index)
        if ¬ n1.2 then (room1, n1.1, false)
        else
          let n2 := sendOptOrRaise alive room1.sender (.progressMsg snap)
          if ¬ n2.2 then (room1, n1.1 ++ n2.1, false)
          else
            let n3 := sendOptOrRaise alive room1.receiver (.progressMsg snap)
            (room1, n1.1 ++ n2.1 ++ n3.1, n3.2)
  | .complete =>
      if role ≠ "sender" then (room, [], true)
      else
        let room1 := { room with is_active := false }
        let elapsed := now - room.stats.start_time
        let avg_speed :=
          if elapsed > 0 then (room.stats.total_size : ℚ) / elapsed else 0
        let cmsg := OutMsg.completeMsg room.stats.filename room.stats.total_size
          (format_size room.stats.total_size) (format_time elapsed)
          (format_speed avg_speed)
        let n1 :=
          match room1.sender with
          | some c => trySendTo alive c cmsg
          | none => ([], true)
        if ¬ n1.2 then (room1, n1.1, false)
        else
          let n2 :=
            match room1.receiver with
            | some c => trySendTo alive c cmsg
            | none => ([], true)
          (room1, n1.1 ++ n2.1, n2.2)
  | .cancel =>
      let room1 := { room with is_active := false }
      let cmsg := OutMsg.cancelledMsg ("Transfer cancelled by " ++ role)
      let n1 :=
        match room1.sender with
        | some c => trySendTo alive c cmsg
        | none => ([], true)
      if ¬ n1.2 then (room1, n1.1, false)
      else
        let n2 :=
          match room1.receiver with
          | some c => trySendTo alive c cmsg
          | none => ([], true)
        (room1, n1.1 ++ n2.1, n2.2)
  | .ping =>
      let n1 := sendOptOrRaise alive
        (if role = "sender" then room.sender else room.receiver) .pong
      (room, n1.1, n1.2)
  | .other => (room, [], true)

/-- handle_binary_chunk from src/backend/index.py.  Both the relay send and
the progress broadcast are inside try/except, so the handler never lets an
exception escape: the completion Bool is true in every branch. -/
def handle_binary_chunk (alive : ConnId → Bool) (now : ℚ) (room : TransferRoom)
    (role : String) (chunk : List ℕ) :
    TransferRoom × List (ConnId × OutMsg) × Bool :=
  if role ≠ "sender" then (room, [], true)
  else
    match room.receiver with
    | none => (room, [], true)
    | some r =>
        let stats1 := (room.stats.update (chunk.length : ℤ) now).1
        let snap := (room.stats.update (chunk.length : ℤ) now).2
        let room1 := { room with stats := stats1 }
        if alive r then
          match room1.sender with
          | none =>
              -- room.sender.send_json raises AttributeError inside the
              -- second try block; swallowed by its bare except
              (room1, [(r, .chunkBinary chunk)], true)
          | some s =>
              if alive s then
                let p2 := if alive r then [(r, OutMsg.progressMsg snap)] else []
                (room1, [(r, .chunkBinary chunk), (s, .progressMsg snap)] ++ p2, true)
              else (room1, [(r, .chunkBinary chunk)], true)
        else (room1, [], true)

/-- handle_disconnect from src/backend/index.py, up to the asyncio.sleep.
Clears the role slot, best-effort notifies the surviving peer, clears
is_active; when both slots are then empty the deferred deletion is due at
now + 60, returned as the Option ℚ (the scheduled expiry instant). -/
def handle_disconnect (alive : ConnId → Bool) (now : ℚ) (room : TransferRoom)
    (role : String) : TransferRoom × List (ConnId × OutMsg) × Option ℚ :=
  let pair : TransferRoom × List (ConnId × OutMsg) :=
    if role = "sender" then
      let r1 := { room with sender := none }
      (r1, match r1.receiver with
        | some c => (trySendTo alive c (.peer_left "sender" "Sender disconnected")).1
        | none => [])
    else
      let r1 := { room with receiver := none }
      (r1, match r1.sender with
        | some c => (trySendTo alive c (.peer_left "receiver" "Receiver disconnected")).1
        | none => [])
  let room2 : TransferRoom := { pair.1 with is_active := false }
  let sched :=
    if room2.sender = none ∧ room2.receiver = none then some (now + 60) else none
  (room2, pair.2, sched)

/-- The body of the sleeping cleanup task at its expiry instant: if the
room id is still a key of the registry and the room found under it has
both slots empty, delete it; otherwise leave the registry alone. -/
def cleanup_expire (rooms : RoomRegistry) (room_id : String) : RoomRegistry :=
  match regFind rooms room_id with
  | none => rooms
  | some r =>
      if r.sender = none ∧ r.receiver = none then regErase rooms room_id
      else rooms

/-- One iteration of the main receive loop of websocket_transfer: dispatch
the frame to handle_message or handle_binary_chunk; when the handler let an
exception escape, the except-clauses run handle_disconnect for this
connection and the loop (the session) ends.  The final Bool is true when
the session continues. -/
def websocket_step (alive : ConnId → Bool) (now : ℚ) (room : TransferRoom)
    (role : String) (msg : WireMsg) :
    TransferRoom × List (ConnId × OutMsg) × Bool :=
  match msg with
  | .text m =>
      let h := handle_message alive now room role m
      if h.2.2 then (h.1, h.2.1, true)
      else
        let d := handle_disconnect alive now h.1 role
        (d.1, h.2.1 ++ d.2.1, false)
  | .binary chunk =>
      let h := handle_binary_chunk alive now room role chunk
      if h.2.2 then (h.1, h.2.1, true)
      else
        let d := handle_disconnect alive now h.1 role
        (d.1, h.2.1 ++ d.2.1, false)

/-- Outcome of the admission prologue of websocket_transfer (everything
before the main receive loop): the registry afterwards, the messages
delivered, the connections explicitly closed by websocket.close(), and
whether the handler reached the main loop. -/
structure AdmitResult where
  registry : RoomRegistry
  sent : List (ConnId × OutMsg)
  closed : List ConnId
  admitted : Bool
deriving DecidableEq

/-- The admission prologue of websocket_transfer from src/backend/index.py:
role validation, get-or-create of the room, the occupancy check for the
requested role slot, the connected acknowledgment and the best-effort
peer_joined notification.  When an unguarded send to the connecting socket
itself raises (ws not alive), the handler aborts right there with the
mutations made so far, exactly as the uncaught exception would in the
source. -/
def websocket_join (alive : ConnId → Bool) (now : ℚ) (rooms : RoomRegistry)
    (room_id role : String) (ws : ConnId) : AdmitResult :=
  if ¬ (role = "sender" ∨ role = "receiver") then
    if alive ws then
      { registry := rooms
        sent := [(ws, .errorMsg "Invalid role. Use 'sender' or 'receiver'")]
        closed := [ws]
        admitted := false }
    else
      { registry := rooms, sent := [], closed := [], admitted := false }
  else
    let rooms1 :=
      match regFind rooms room_id with
      | none => regSet rooms room_id { room_id := room_id, created_at := now }
      | some _ => rooms
    match regFind rooms1 room_id with
    | none =>
        -- unreachable: the room was just inserted if absent
        { registry := rooms1, sent := [], closed := [], admitted := false }
    | some room =>
        if role = "sender" then
          match room.sender with
          | some _ =>
              if alive ws then
                { registry := rooms1
                  sent := [(ws, .errorMsg "Sender already connected")]
                  closed := [ws]
                  admitted := false }
              else
                { registry := rooms1, sent := [], closed := [], admitted := false }
          | none =>
              let room2 := { room with sender := some ws }
              let rooms2 := regSet rooms1 room_id room2
              if alive ws then
                let ack := [(ws, OutMsg.connectedMsg "sender" room_id
                  "Connected as sender. Waiting for receiver..."
                  room2.receiver.isSome)]
                let note :=
                  match room2.receiver with
                  | some c => (trySendTo alive c
                      (.peer_joined "sender" "Sender has connected")).1
                  | none => []
                { registry := rooms2, sent := ack ++ note, closed := [],
                  admitted := true }
              else
                -- the connected acknowledgment raised: the slot is already
                -- taken but the handler never reaches the main loop
                { registry := rooms2, sent := [], closed := [], admitted := false }
        else
          match room.receiver with
          | some _ =>
              if alive ws then
                { registry := rooms1
                  sent := [(ws, .errorMsg "Receiver already connected")]
                  closed := [ws]
                  admitted := false }
              else
                { registry := rooms1, sent := [], closed := [], admitted := false }
          | none =>
              let room2 := { room with receiver := some ws }
              let rooms2 := regSet rooms1 room_id room2
              if alive ws then
                let ack := [(ws, OutMsg.connectedMsg "receiver" room_id
                  "Connected as receiver. Waiting for sender..."
                  room2.sender.isSome)]
                let note :=
                  match room2.sender with
                  | some c => (trySendTo alive c
                      (.peer_joined "receiver" "Receiver has connected. Ready to transfer!")).1
                  | none => []
                { registry := rooms2, sent := ack ++ note, closed := [],
                  admitted := true }
              else
                { registry := rooms2, sent := [], closed := [], admitted := false }

/-- The slot of a room addressed by a role string, as the source reads it
(room.sender when role is the string sender, room.receiver otherwise). -/
def getSlot (room : TransferRoom) (role : String) : Option ConnId :=
  if role = "sender" then room.sender else room.receiver

/-- The character pool of generate_room_id:
string.ascii_uppercase + string.digits. -/
def roomIdChars : List Char :=
  [ 'A', 'B', 'C', 'D', 'E', 'F', 'G', 'H', 'I', 'J', 'K', 'L', 'M',
    'N', 'O', 'P', 'Q', 'R', 'S', 'T', 'U', 'V', 'W', 'X', 'Y', 'Z',
    '0', '1', '2', '3', '4', '5', '6', '7', '8', '9' ]

/-- generate_room_id from src/backend/index.py: six characters drawn from
roomIdChars.  The six random draws of random.choices(..., k=6) are the
input pick. -/
def generate_room_id (pick : Fin 6 → Fin 36) : String :=
  String.mk ((List.finRange 6).map fun i =>
    roomIdChars.get (Fin.cast (by decide) (pick i)))

/-- The retry loop of create_room: take candidate ids gen i, gen (i+1), ...
until one is not a key of the registry.  The while loop of the source has
no intrinsic bound, so the model carries fuel; none means the fuel ran out
while every candidate collided. -/
def freshIdLoop (gen : ℕ → String) (rooms : RoomRegistry) :
    ℕ → ℕ → Option String
  | 0, _ => none
  | fuel + 1, i =>
      if regFind rooms (gen i) = none then some (gen i)
      else freshIdLoop gen rooms fuel (i + 1)

/-- The candidate id stream of create_room: the i-th call of
generate_room_id under the random draws picks i. -/
def genId (picks : ℕ → Fin 6 → Fin 36) (i : ℕ) : String :=
  generate_room_id (picks i)

/-- create_room from src/backend/index.py, restricted to its effect on the
room registry and the id it returns: generate an id, regenerate while it
collides, then store a fresh TransferRoom under it. -/
def create_room (fuel : ℕ) (picks : ℕ → Fin 6 → Fin 36) (rooms : RoomRegistry)
    (now : ℚ) : Option (String × RoomRegistry) :=
  match freshIdLoop (genId picks) rooms fuel 0 with
  | none => none
  | some id => some (id, regSet rooms id { room_id := id, created_at := now })

/-- Repeated TransferStats.update calls (the stats side of a sequence of
chunk deliveries): each list entry is the chunk's byte count with the
wall-clock instant of its delivery. -/
def runUpdates : TransferStats → List (ℤ × ℚ) → TransferStats
  | s, [] => s
  | s, (b, t) :: rest => runUpdates (s.update b t).1 rest

/-- The snapshot returned by the last of the update calls (none when no
chunk was delivered). -/
def lastSnapshot : TransferStats → List (ℤ × ℚ) → Option StatusSnapshot
  | _, [] => none
  | s, (b, t) :: [] => some (s.update b t).2
  | s, (b, t) :: r :: rest => lastSnapshot (s.update b t).1 (r :: rest)

section Theorems

theorem update_fst_last_bytes (s : TransferStats) (b : ℤ) (t : ℚ) :
    ((s.update b t).1).last_bytes =
      (if t - s.last_update_time ≥ 1/10 then s.transferred + b else s.last_bytes) := rfl

theorem update_snd_total_size (s : TransferStats) (b : ℤ) (t : ℚ) :
    ((s.update b t).2).total_size = s.total_size := rfl

/-- C1: admitting a connection into a room whose requested role slot is
already occupied sends the connecting peer a role-conflict error message,
closes that connection, does not admit it, and leaves the registry — in
particular the room's slot, still holding the first connection — exactly
as it was. -/
theorem role_conflict_rejects_and_preserves_slot
    (alive : ConnId → Bool) (now : ℚ) (rooms : RoomRegistry)
    (room_id role : String) (ws : ConnId) (room : TransferRoom)
    (hroom : regFind rooms room_id = some room)
    (hrole : role = "sender" ∨ role = "receiver")
    (hocc : ∃ c, getSlot room role = some c)
    (hws : alive ws = true) :
    (websocket_join alive now rooms room_id role ws).registry = rooms ∧
    (websocket_join alive now rooms room_id role ws).sent =
      [(ws, OutMsg.errorMsg (if role = "sender" then "Sender already connected"
        else "Receiver already connected"))] ∧
    (websocket_join alive now rooms room_id role ws).closed = [ws] ∧
    (websocket_join alive now rooms room_id role ws).admitted = false ∧
    regFind (websocket_join alive now rooms room_id role ws).registry room_id
      = some room := by
  obtain ⟨c, hc⟩ := hocc
  rcases hrole with h | h <;> subst h
  · rw [getSlot, if_pos rfl] at hc
    simp [websocket_join, hroom, hc, hws]
  · have hne : ("receiver" : String) ≠ "sender" := by decide
    rw [getSlot, if_neg hne] at hc
    simp [websocket_join, hroom, hc, hws, hne]

/-- C9: a connection request with a role outside sender/receiver is told
an invalid-role error and closed before the room lookup runs, so the
registry is untouched and an unknown room id stays absent. -/
theorem invalid_role_leaves_registry
    (alive : ConnId → Bool) (now : ℚ) (rooms : RoomRegistry)
    (room_id role : String) (ws : ConnId)
    (hrole : ¬ (role = "sender" ∨ role = "receiver")) :
    (websocket_join alive now rooms room_id role ws).registry = rooms ∧
    (websocket_join alive now rooms room_id role ws).admitted = false ∧
    (alive ws = true →
      (websocket_join alive now rooms room_id role ws).sent =
        [(ws, OutMsg.errorMsg "Invalid role. Use 'sender' or 'receiver'")] ∧
      (websocket_join alive now rooms room_id role ws).closed = [ws]) ∧
    (regFind rooms room_id = none →
      regFind (websocket_join alive now rooms room_id role ws).registry room_id
        = none) := by
  cases hw : alive ws <;> simp [websocket_join, hrole, hw]

/-- C7: a cancel message, from either role, clears is_active, leaves the
stats field (and both slots) untouched, and — when every present peer is
deliverable — delivers a cancelled notification to each present peer. -/
theorem cancel_effects (alive : ConnId → Bool) (now : ℚ) (room : TransferRoom)
    (role : String)
    (hs : ∀ c, room.sender = some c → alive c = true)
    (hr : ∀ c, room.receiver = some c → alive c = true) :
    (handle_message alive now room role .cancel).1.is_active = false ∧
    (handle_message alive now room role .cancel).1.stats = room.stats ∧
    (handle_message alive now room role .cancel).1.sender = room.sender ∧
    (handle_message alive now room role .cancel).1.receiver = room.receiver ∧
    (handle_message alive now room role .cancel).2.1 =
      (room.sender.toList.map fun c =>
        (c, OutMsg.cancelledMsg ("Transfer cancelled by " ++ role))) ++
      (room.receiver.toList.map fun c =>
        (c, OutMsg.cancelledMsg ("Transfer cancelled by " ++ role))) ∧
    (handle_message alive now room role .cancel).2.2 = true := by
  cases hsen : room.sender with
  | none =>
      cases hrec : room.receiver with
      | none => simp [handle_message, trySendTo, hsen, hrec]
      | some d => simp [handle_message, trySendTo, hsen, hrec, hr d hrec]
  | some c =>
      have hac := hs c hsen
      cases hrec : room.receiver with
      | none => simp [handle_message, trySendTo, hsen, hrec, hac]
      | some d => simp [handle_message, trySendTo, hsen, hrec, hac, hr d hrec]

/-- C10: on the raw-binary path with a present but undeliverable receiver,
the stats update has already happened when the relay attempt fails — the
handler returns normally, delivers nothing (no chunk, no progress to
either peer), and transferred is left incremented by the chunk length. -/
theorem binary_chunk_stats_before_relay (alive : ConnId → Bool) (now : ℚ)
    (room : TransferRoom) (chunk : List ℕ) (r : ConnId)
    (hrecv : room.receiver = some r) (hdead : alive r = false) :
    (handle_binary_chunk alive now room "sender" chunk).1.stats.transferred
      = room.stats.transferred + chunk.length ∧
    (handle_binary_chunk alive now room "sender" chunk).2.1 = [] ∧
    (handle_binary_chunk alive now room "sender" chunk).2.2 = true := by
  simp [handle_binary_chunk, hrecv, hdead, update_fst_transferred]

/-- C4: a disconnect that empties both slots schedules the deletion for
exactly 60 seconds later (and schedules nothing otherwise), and the expiry
task deletes the room precisely when the id is still registered with both
slots empty at expiry — a room found reoccupied at expiry is left in the
registry. -/
theorem cleanup_grace_recheck (alive : ConnId → Bool) (now : ℚ)
    (room : TransferRoom) (role : String) (rooms : RoomRegistry)
    (id : String) (r : TransferRoom) :
    (∀ t, (handle_disconnect alive now room role).2.2 = some t → t = now + 60) ∧
    ((handle_disconnect alive now room role).2.2 = none ∨
      ((handle_disconnect alive now room role).1.sender = none ∧
       (handle_disconnect alive now room role).1.receiver = none)) ∧
    (regFind rooms id = some r → r.sender = none → r.receiver = none →
      cleanup_expire rooms id = regErase rooms id) ∧
    (regFind rooms id = some r → ¬ (r.sender = none ∧ r.receiver = none) →
      cleanup_expire rooms id = rooms) ∧
    (regFind rooms id = none → cleanup_expire rooms id = rooms) := by
  have hsched : (handle_disconnect alive now room role).2.2 =
      (if (handle_disconnect alive now room role).1.sender = none ∧
          (handle_disconnect alive now room role).1.receiver = none
       then some (now + 60) else none) := rfl
  refine ⟨?_, ?_, ?_, ?_, ?_⟩
  · intro t ht
    rw [hsched] at ht
    split at ht
    · simpa using ht.symm
    · exact absurd ht (by simp)
  · rw [hsched]
    split
    · exact Or.inr (by assumption)
    · exact Or.inl rfl
  · intro h1 h2 h3
    simp [cleanup_expire, h1, h2, h3]
  · intro h1 h2
    simp only [cleanup_expire, h1]
    rw [if_neg h2]
  · intro h1
    simp [cleanup_expire, h1]

/-- A send oracle under which every connection is deliverable. -/
def aliveAll : ConnId → Bool := fun _ => true

/-- A send oracle under which no connection is deliverable. -/
def aliveNone : ConnId → Bool := fun _ => false

/-- A room whose sender slot is held by connection 1. -/
def roomW : TransferRoom := { room_id := "R", sender := some 1 }

/-- A registry holding roomW under its id. -/
def regW : RoomRegistry := [("R", roomW)]

theorem role_conflict_rejects_and_preserves_slot_w :
    (websocket_join aliveAll 0 regW "R" "sender" 2).registry = regW ∧
    (websocket_join aliveAll 0 regW "R" "sender" 2).sent =
      [(2, OutMsg.errorMsg "Sender already connected")] ∧
    (websocket_join aliveAll 0 regW "R" "sender" 2).closed = [2] ∧
    (websocket_join aliveAll 0 regW "R" "sender" 2).admitted = false ∧
    regFind (websocket_join aliveAll 0 regW "R" "sender" 2).registry "R"
      = some roomW :=
  role_conflict_rejects_and_preserves_slot aliveAll 0 regW "R" "sender" 2 roomW
    (by decide) (Or.inl rfl) ⟨1, by decide⟩ rfl

theorem invalid_role_leaves_registry_w :
    (websocket_join aliveAll 0 [] "Q" "observer" 7).registry = [] ∧
    (websocket_join aliveAll 0 [] "Q" "observer" 7).sent =
      [(7, OutMsg.errorMsg "Invalid role. Use 'sender' or 'receiver'")] ∧
    (websocket_join aliveAll 0 [] "Q" "observer" 7).closed = [7] ∧
    regFind (websocket_join aliveAll 0 [] "Q" "observer" 7).registry "Q" = none := by
  have h := invalid_role_leaves_registry aliveAll 0 [] "Q" "observer" 7 (by decide)
  exact ⟨h.1, (h.2.2.1 rfl).1, (h.2.2.1 rfl).2, h.2.2.2 rfl⟩

/-- A room with both slots occupied (sender 1, receiver 2). -/
def roomBoth : TransferRoom := { room_id := "R", sender := some 1, receiver := some 2 }

theorem cancel_effects_w :
    (handle_message aliveAll 0 roomBoth "sender" .cancel).1.is_active = false ∧
    (handle_message aliveAll 0 roomBoth "sender" .cancel).1.stats = roomBoth.stats ∧
    (handle_message aliveAll 0 roomBoth "sender" .cancel).1.sender = roomBoth.sender ∧
    (handle_message aliveAll 0 roomBoth "sender" .cancel).1.receiver = roomBoth.receiver ∧
    (handle_message aliveAll 0 roomBoth "sender" .cancel).2.1 =
      [(1, OutMsg.cancelledMsg "Transfer cancelled by sender"),
       (2, OutMsg.cancelledMsg "Transfer cancelled by sender")] ∧
    (handle_message aliveAll 0 roomBoth "sender" .cancel).2.2 = true :=
  cancel_effects aliveAll 0 roomBoth "sender" (fun _ _ => rfl) (fun _ _ => rfl)

theorem binary_chunk_stats_before_relay_w :
    (handle_binary_chunk aliveNone 0 roomBoth "sender" [5, 6]).1.stats.transferred = 2 ∧
    (handle_binary_chunk aliveNone 0 roomBoth "sender" [5, 6]).2.1 = [] ∧
    (handle_binary_chunk aliveNone 0 roomBoth "sender" [5, 6]).2.2 = true :=
  binary_chunk_stats_before_relay aliveNone 0 roomBoth [5, 6] 2 rfl rfl

/-- A registry holding one room with both slots empty. -/
def regEmpty : RoomRegistry := [("R", { room_id := "R" })]

theorem cleanup_grace_recheck_w :
    (65 : ℚ) = 5 + 60 ∧
    cleanup_expire regEmpty "R" = regErase regEmpty "R" ∧
    cleanup_expire [("R", roomW)] "R" = [("R", roomW)] := by
  have h := cleanup_grace_recheck aliveAll 5 roomW "sender" regEmpty "R"
    { room_id := "R" }
  have h2 := cleanup_grace_recheck aliveAll 5 roomW "sender" [("R", roomW)] "R" roomW
  refine ⟨h.1 65 ?_, h.2.2.1 (by decide) rfl rfl, h2.2.2.2.1 (by decide) (by decide)⟩
  show (if (none : Option ConnId) = none ∧ roomW.receiver = none
        then some ((5 : ℚ) + 60) else none) = some 65
  norm_num [roomW]

theorem runUpdates_transferred (l : List (ℤ × ℚ)) (s : TransferStats) :
    (runUpdates s l).transferred = s.transferred + (l.map Prod.fst).sum := by
  induction l generalizing s with
  | nil => simp [runUpdates]
  | cons p rest ih =>
      obtain ⟨b, t⟩ := p
      rw [runUpdates, ih, update_fst_transferred]
      simp
      ring

theorem lastSnapshot_spec (l : List (ℤ × ℚ)) (s : TransferStats) (hl : l ≠ []) :
    ∃ snap, lastSnapshot s l = some snap ∧
      snap.transferred = s.transferred + (l.map Prod.fst).sum ∧
      snap.total_size = s.total_size ∧
      snap.progress = round2 (if snap.total_size > 0 then
        ((snap.transferred : ℤ) : ℚ) / (snap.total_size : ℚ) * 100 else 0) := by
  induction l generalizing s with
  | nil => exact absurd rfl hl
  | cons p rest ih =>
      obtain ⟨b, t⟩ := p
      cases rest with
      | nil =>
          refine ⟨(s.update b t).2, rfl, ?_, ?_, ?_⟩
          · simp [update_snd_transferred]
          · exact update_snd_total_size s b t
          · rw [update_snd_progress, update_snd_transferred, update_snd_total_size]
      | cons q rest2 =>
          obtain ⟨snap, h1, h2, h3, h4⟩ := ih ((s.update b t).1) (by simp)
          refine ⟨snap, h1, ?_, ?_, h4⟩
          · rw [h2, update_fst_transferred]
            simp
            ring
          · rw [h3, update_fst_total_size]

theorem round2_100 : round2 100 = 100 := by
  have h : ((100 : ℚ) * 100) = ((10000 : ℤ) : ℚ) := by norm_num
  have hf : roundHalfEven ((100 : ℚ) * 100) = 10000 := by
    rw [roundHalfEven, h]
    norm_num
  rw [round2, hf]
  norm_num

/-- C2 (amended by chunks_sum_zero_total_cex: the announced size must be
positive): for every sequence of chunk deliveries whose byte counts sum to
S > 0, fed to a fresh tracker announced with total_size = S, the final
transferred equals S and the snapshot of the last update reports progress
exactly 100. -/
theorem chunks_sum_progress (name : String) (t0 : ℚ) (S : ℤ)
    (chunks : List (ℤ × ℚ)) (hS : 0 < S)
    (hsum : (chunks.map Prod.fst).sum = S) :
    (runUpdates (initStats name S t0) chunks).transferred = S ∧
    ∃ snap, lastSnapshot (initStats name S t0) chunks = some snap ∧
      snap.transferred = S ∧ snap.progress = 100 := by
  have hne : chunks ≠ [] := by
    rintro rfl
    simp at hsum
    omega
  constructor
  · rw [runUpdates_transferred, hsum]
    simp [initStats]
  · obtain ⟨snap, h1, h2, h3, h4⟩ := lastSnapshot_spec chunks (initStats name S t0) hne
    rw [hsum] at h2
    have htr : snap.transferred = S := by rw [h2]; simp [initStats]
    have htot : snap.total_size = S := by rw [h3]; rfl
    refine ⟨snap, h1, htr, ?_⟩
    rw [h4, htr, htot, if_pos hS]
    rw [show ((S : ℤ) : ℚ) / ((S : ℤ) : ℚ) * 100 = 100 by
      rw [div_self (by exact_mod_cast hS.ne')]; norm_num]
    exact round2_100

theorem chunks_sum_progress_w :
    (runUpdates (initStats "a" 4 0) [(1, 1), (3, 2)]).transferred = 4 ∧
    ∃ snap, lastSnapshot (initStats "a" 4 0) [(1, 1), (3, 2)] = some snap ∧
      snap.transferred = 4 ∧ snap.progress = 100 :=
  chunks_sum_progress "a" 0 4 [(1, 1), (3, 2)] (by decide) (by decide)

/-- C2 counterexample to the unamended claim: a single empty chunk sums to
S = 0; against a fresh tracker with total_size = 0 the final transferred
is 0 = S as claimed, but the reported progress is 0, not 100. -/
theorem chunks_sum_zero_total_cex :
    (runUpdates (initStats "a" 0 0) [(0, 1)]).transferred = 0 ∧
    lastSnapshot (initStats "a" 0 0) [(0, 1)] =
      some (((initStats "a" 0 0).update 0 1).2) ∧
    (((initStats "a" 0 0).update 0 1).2).progress = 0 ∧
    (0 : ℚ) ≠ 100 := by
  refine ⟨rfl, rfl, ?_, by norm_num⟩
  rw [update_snd_progress]
  norm_num [initStats, round2, roundHalfEven]

theorem format_time_neg {q : ℚ} (h : q < 0) : format_time q = "calculating..." := by
  rw [format_time, if_pos h]

theorem format_time_zero : format_time 0 = "0s" := by
  have h0 : ¬ ((0 : ℚ) < 0) := lt_irrefl 0
  rw [format_time, if_neg h0, pyInt, if_neg h0]
  norm_num
  decide

/-- C5 (amended by eta_zero_avg_speed_cex: with average speed 0 — in
particular whenever elapsed is not positive or nothing was transferred —
the eta field is the formatting of 0, namely the string 0s, not
"calculating..."): when the average speed is positive the eta field is
format_time of remaining bytes over that average, and "calculating..."
arises exactly through that formula going negative, i.e. when transferred
exceeds total_size. -/
theorem eta_cases (s : TransferStats) (b : ℤ) (t : ℚ) :
    (avgSpeed s b t = 0 → ((s.update b t).2).eta = "0s") ∧
    (0 < avgSpeed s b t →
      ((s.update b t).2).eta =
        format_time (((s.total_size - (s.transferred + b) : ℤ) : ℚ) / avgSpeed s b t)) ∧
    (0 < avgSpeed s b t → s.total_size < s.transferred + b →
      ((s.update b t).2).eta = "calculating...") := by
  refine ⟨?_, ?_, ?_⟩
  · intro h
    rw [update_snd_eta, h, if_neg (lt_irrefl 0)]
    exact format_time_zero
  · intro h
    rw [update_snd_eta, if_pos h]
  · intro h hlt
    rw [update_snd_eta, if_pos h]
    apply format_time_neg
    apply div_neg_of_neg_of_pos _ h
    exact_mod_cast Int.sub_neg_of_lt hlt

/-- The tracker right after a file_info announcing 10 bytes at time 0. -/
def statsC5 : TransferStats := initStats "f" 10 0

/-- C5 counterexample: five seconds in with nothing transferred the
average speed is 0, yet the eta field is the string 0s — the source sets
the eta value to 0 and format_time(0) is "0s", not "calculating...". -/
theorem eta_zero_avg_speed_cex :
    avgSpeed statsC5 0 5 = 0 ∧
    ((statsC5.update 0 5).2).eta = "0s" ∧
    "0s" ≠ "calculating..." := by
  have havg : avgSpeed statsC5 0 5 = 0 := by
    rw [avgSpeed]
    norm_num [statsC5, initStats]
  refine ⟨havg, ?_, by decide⟩
  rw [update_snd_eta, havg, if_neg (lt_irrefl 0)]
  exact format_time_zero

theorem eta_cases_w :
    ((statsC5.update 0 5).2).eta = "0s" ∧
    ((statsC5.update 20 5).2).eta = "calculating..." :=
  ⟨(eta_cases statsC5 0 5).1 (by rw [avgSpeed]; norm_num [statsC5, initStats]),
   (eta_cases statsC5 20 5).2.2
     (by rw [avgSpeed]; norm_num [statsC5, initStats])
     (by norm_num [statsC5, initStats])⟩

/-- C6 (amended by speed_window_within_100ms_cex: the identical-speed
guarantee is relative to the last recomputation instant, not to the gap
between the two calls): current_speed is recomputed only when at least
100ms have elapsed since last_update_time, which is then advanced to the
call instant; a call within the window reports the previous current_speed
unchanged, and two successive calls both within 100ms of the last
recomputation report the same (the previous) current_speed. -/
theorem speed_window (s : TransferStats) (b1 b2 : ℤ) (t1 t2 : ℚ) :
    (t1 - s.last_update_time < 1/10 →
      ((s.update b1 t1).1).current_speed = s.current_speed ∧
      ((s.update b1 t1).2).speed = s.current_speed ∧
      ((s.update b1 t1).1).last_update_time = s.last_update_time) ∧
    (1/10 ≤ t1 - s.last_update_time →
      ((s.update b1 t1).1).last_update_time = t1) ∧
    (t1 - s.last_update_time < 1/10 → t2 - s.last_update_time < 1/10 →
      ((s.update b1 t1).2).speed = s.current_speed ∧
      ((((s.update b1 t1).1).update b2 t2).2).speed = s.current_speed) := by
  have hni : ∀ t : ℚ, t - s.last_update_time < 1/10 →
      ¬ (t - s.last_update_time ≥ 1/10) := fun t h => not_le.mpr h
  refine ⟨?_, ?_, ?_⟩
  · intro h
    refine ⟨?_, ?_, ?_⟩
    · rw [update_fst_current_speed, if_neg (hni t1 h)]
    · rw [update_snd_speed, update_fst_current_speed, if_neg (hni t1 h)]
    · rw [update_fst_last_update_time, if_neg (hni t1 h)]
  · intro h
    rw [update_fst_last_update_time, if_pos h]
  · intro h1 h2
    have e1 : ((s.update b1 t1).1).last_update_time = s.last_update_time := by
      rw [update_fst_last_update_time, if_neg (hni t1 h1)]
    have e2 : ((s.update b1 t1).1).current_speed = s.current_speed := by
      rw [update_fst_current_speed, if_neg (hni t1 h1)]
    refine ⟨?_, ?_⟩
    · rw [update_snd_speed, e2]
    · rw [update_snd_speed, update_fst_current_speed, e1, if_neg (hni t2 h2), e2]

/-- A tracker with all the dataclass defaults (in particular
last_update_time = 0 and current_speed = 0). -/
def statsC6 : TransferStats := {}

/-- C6 counterexample to the unamended claim: two update calls 60ms apart
(at 60ms and at 120ms) report different current_speed values, because the
second call is the first to lie 100ms past the last recomputation
(which happened at time 0). -/
theorem speed_window_within_100ms_cex :
    (12 : ℚ)/100 - 6/100 < 1/10 ∧
    ((statsC6.update 100 (6/100)).2).speed ≠
      ((((statsC6.update 100 (6/100)).1).update 0 (12/100)).2).speed := by
  have hlut : statsC6.last_update_time = 0 := rfl
  have h1 : ((statsC6.update 100 (6/100)).2).speed = 0 := by
    rw [update_snd_speed, update_fst_current_speed, hlut]
    rw [if_neg (by norm_num)]
    rfl
  have e1 : ((statsC6.update 100 (6/100)).1).last_update_time = 0 := by
    rw [update_fst_last_update_time, hlut, if_neg (by norm_num)]
  have e2 : ((statsC6.update 100 (6/100)).1).last_bytes = 0 := by
    rw [update_fst_last_bytes, hlut, if_neg (by norm_num)]
    rfl
  have e3 : ((statsC6.update 100 (6/100)).1).transferred = 100 := by
    rw [update_fst_transferred]
    rfl
  have h2 : ((((statsC6.update 100 (6/100)).1).update 0 (12/100)).2).speed
      = 2500/3 := by
    rw [update_snd_speed, update_fst_current_speed, e1, e2, e3]
    rw [if_pos (by norm_num), if_pos (by norm_num)]
    norm_num
  refine ⟨by norm_num, ?_⟩
  rw [h1, h2]
  norm_num

theorem speed_window_w :
    (((statsC6.update 5 (1/20)).1).current_speed = statsC6.current_speed ∧
     ((statsC6.update 5 (1/20)).2).speed = statsC6.current_speed ∧
     ((statsC6.update 5 (1/20)).1).last_update_time = statsC6.last_update_time) ∧
    ((statsC6.update 5 (2/10)).1).last_update_time = 2/10 ∧
    (((statsC6.update 5 (1/20)).2).speed = statsC6.current_speed ∧
     ((((statsC6.update 5 (1/20)).1).update 0 (1/16)).2).speed
       = statsC6.current_speed) :=
  ⟨(speed_window statsC6 5 0 (1/20) (1/16)).1 (by norm_num [statsC6]),
   (speed_window statsC6 5 0 (2/10) (1/16)).2.1 (by norm_num [statsC6]),
   (speed_window statsC6 5 0 (1/20) (1/16)).2.2 (by norm_num [statsC6])
     (by norm_num [statsC6])⟩

/-- C3 (amended by json_chunk_send_failure_cex: the caught-at-the-send-site
guarantee holds on the raw-binary path, whose relay send and progress
broadcast are wrapped in try/except, but not in the JSON message path,
where a failed send escapes to the receive loop and ends the sending
handler's own session through the disconnect path): handle_binary_chunk
never lets a send failure escape, for any liveness of the peers, so a
binary frame never terminates the session. -/
theorem binary_path_swallows_send_failures (alive : ConnId → Bool) (now : ℚ)
    (room : TransferRoom) (role : String) (chunk : List ℕ) :
    (handle_binary_chunk alive now room role chunk).2.2 = true ∧
    (websocket_step alive now room role (.binary chunk)).2.2 = true := by
  have h : (handle_binary_chunk alive now room role chunk).2.2 = true := by
    rw [handle_binary_chunk]
    split
    · rfl
    · cases hrec : room.receiver with
      | none => rfl
      | some r =>
          cases har : alive r with
          | false => simp [har]
          | true =>
              simp only [har, if_true]
              cases { room with
                  stats := (room.stats.update (chunk.length : ℤ) now).1 : TransferRoom }.sender with
              | none => rfl
              | some s => cases has : alive s <;> simp [has]
  refine ⟨h, ?_⟩
  simp [websocket_step, h]

/-- The room of the C3 counterexample: sender 1 and receiver 2 attached,
a 10-byte transfer announced at time 0. -/
def roomC3 : TransferRoom :=
  { room_id := "R", sender := some 1, receiver := some 2,
    stats := initStats "f" 10 0, is_active := true }

/-- A send oracle under which only connection 1 (the sender) is
deliverable: the receiver went away mid-session. -/
def aliveOnly1 : ConnId → Bool := fun c => c == 1

/-- C3 counterexample: a structured (JSON base64) chunk whose relay send
to the vanished receiver fails makes handle_message propagate the failure,
and the receive loop then terminates the sending handler's own session
(the session flag drops to false and the disconnect path has cleared the
sender slot). -/
theorem json_chunk_send_failure_cex :
    (handle_message aliveOnly1 1 roomC3 "sender" (.chunk "AAAA" [0, 0, 0] 0)).2.2
      = false ∧
    (websocket_step aliveOnly1 1 roomC3 "sender"
      (.text (.chunk "AAAA" [0, 0, 0] 0))).2.2 = false ∧
    (websocket_step aliveOnly1 1 roomC3 "sender"
      (.text (.chunk "AAAA" [0, 0, 0] 0))).1.sender = none := by
  have h : (handle_message aliveOnly1 1 roomC3 "sender"
      (.chunk "AAAA" [0, 0, 0] 0)).2.2 = false := by
    simp [handle_message, roomC3, sendOptOrRaise, trySendTo, aliveOnly1]
  refine ⟨h, ?_, ?_⟩
  · simp [websocket_step, h]
  · simp [websocket_step, h, handle_disconnect, handle_message, roomC3,
      sendOptOrRaise, trySendTo, aliveOnly1]

theorem regFind_regSet_of_ne (rooms : RoomRegistry) (id id2 : String)
    (r : TransferRoom) (h : id2 ≠ id) :
    regFind (regSet rooms id r) id2 = regFind rooms id2 := by
  induction rooms with
  | nil =>
      simp only [regSet, regFind]
      rw [if_neg (fun he => h he.symm)]
  | cons p rest ih =>
      obtain ⟨k, v⟩ := p
      by_cases hp : k = id
      · subst hp
        simp only [regSet, if_pos rfl, regFind]
        rw [if_neg (fun he => h he.symm), if_neg (fun he => h he.symm)]
      · simp only [regSet, if_neg hp, regFind]
        by_cases hq : k = id2
        · rw [if_pos hq, if_pos hq]
        · rw [if_neg hq, if_neg hq]
          exact ih

theorem freshIdLoop_spec (gen : ℕ → String) (rooms : RoomRegistry) :
    ∀ (fuel i : ℕ), (∃ k, k < fuel ∧ regFind rooms (gen (i + k)) = none) →
      ∃ j, freshIdLoop gen rooms fuel i = some (gen j) ∧
        regFind rooms (gen j) = none := by
  intro fuel
  induction fuel with
  | zero =>
      rintro i ⟨k, hk, _⟩
      exact absurd hk (Nat.not_lt_zero k)
  | succ fuel ih =>
      rintro i ⟨k, hk, hfree⟩
      by_cases h : regFind rooms (gen i) = none
      · exact ⟨i, by simp [freshIdLoop, h], h⟩
      · have hnext : ∃ k2, k2 < fuel ∧ regFind rooms (gen ((i + 1) + k2)) = none := by
          cases k with
          | zero => exact absurd (by simpa using hfree) h
          | succ k2 =>
              exact ⟨k2, by omega, by rw [show (i + 1) + k2 = i + (k2 + 1) by omega]; exact hfree⟩
        obtain ⟨j, hj1, hj2⟩ := ih (i + 1) hnext
        exact ⟨j, by simp [freshIdLoop, h, hj1], hj2⟩

theorem generate_room_id_length (pick : Fin 6 → Fin 36) :
    (generate_room_id pick).length = 6 := by
  simp [generate_room_id, String.length]

theorem generate_room_id_chars (pick : Fin 6 → Fin 36) :
    ∀ c ∈ (generate_room_id pick).data, c ∈ roomIdChars ∧ c.isAlphanum = true := by
  have hall : ∀ x ∈ roomIdChars, x.isAlphanum = true := by decide
  intro c hc
  simp only [generate_room_id, String.mk, List.mem_map] at hc
  obtain ⟨i, _, hi⟩ := hc
  have hmem : c ∈ roomIdChars := by
    rw [← hi]
    exact List.get_mem roomIdChars _ _
  exact ⟨hmem, hall c hmem⟩

/-- C8: when some candidate within the fuel bound is fresh, create_room
returns an id that was not a key of the registry (regenerating on every
collision), stores a fresh TransferRoom under it, and the id is a
six-character string over the uppercase-plus-digits alphabet. -/
theorem create_room_fresh_unique (fuel : ℕ) (picks : ℕ → Fin 6 → Fin 36)
    (rooms : RoomRegistry) (now : ℚ)
    (hfresh : ∃ i, i < fuel ∧ regFind rooms (genId picks i) = none) :
    ∃ id rooms2, create_room fuel picks rooms now = some (id, rooms2) ∧
      regFind rooms id = none ∧
      regFind rooms2 id = some { room_id := id, created_at := now } ∧
      id.length = 6 ∧
      ∀ c ∈ id.data, c ∈ roomIdChars ∧ c.isAlphanum = true := by
  obtain ⟨i, hi, hfree⟩ := hfresh
  obtain ⟨j, hj1, hj2⟩ := freshIdLoop_spec (genId picks) rooms fuel 0
    ⟨i, hi, by simpa using hfree⟩
  refine ⟨genId picks j,
    regSet rooms (genId picks j) { room_id := genId picks j, created_at := now },
    ?_, hj2, ?_, ?_, ?_⟩
  · simp [create_room, hj1]
  · exact regFind_regSet_self rooms (genId picks j) _
  · exact generate_room_id_length (picks j)
  · exact generate_room_id_chars (picks j)

/-- The degenerate random stream that always draws the first character. -/
def picks0 : ℕ → Fin 6 → Fin 36 := fun _ _ => 0

theorem create_room_fresh_unique_w :
    ∃ id rooms2, create_room 1 picks0 [] 0 = some (id, rooms2) ∧
      regFind [] id = none ∧
      regFind rooms2 id = some { room_id := id, created_at := 0 } ∧
      id.length = 6 ∧
      ∀ c ∈ id.data, c ∈ roomIdChars ∧ c.isAlphanum = true :=
  create_room_fresh_unique 1 picks0 [] 0 ⟨0, by decide, rfl⟩

end Theorems

end DataDrop
